import Mathlib

/-!
Verification model of the era_api_v1 server shell (src/cmd/server/main.go).

The Go program is embedded shallowly:
  * the filesystem is an explicit value (`FS`),
  * Go errors are an explicit inductive (`GoErr`), distinguishing plain
    `fmt.Errorf` errors from `os.PathError`-style errors, because
    `os.IsNotExist` unwraps only the latter,
  * the HTTP layer is modelled as pure handlers transforming a response
    writer state plus an event trace, and
  * `fmt.Sprintf` with `%s` verbs is modelled by a character scanner.

Relevant Go standard-library semantics encoded here (from the Go sources):
  * `filepath.Glob` returns an error only for a malformed pattern; a
    pattern that matches nothing (missing directory included) yields an
    empty list and a nil error.
  * `html/template.ParseGlob` therefore fails on a missing or empty
    directory with the plain error "pattern matches no files" built by
    `fmt.Errorf`, which is not a `PathError`.
  * `os.IsNotExist` reports true only for errors unwrapping to
    `fs.ErrNotExist` through `PathError` / `LinkError` / `SyscallError`;
    on a plain `fmt.Errorf` error it reports false.
  * a `net/http.ServeMux` pattern with a method, such as
    "POST /api/v1/process", matches only that method (GET also matching
    HEAD); a request for a registered path with a different method gets
    405 Method Not Allowed with an Allow header, before any registered
    handler runs.
-/

/-- A file on disk: directory, file name, content. -/
structure TFile where
  dir : String
  name : String
  content : String
deriving DecidableEq, Repr

/-- The filesystem: the set of existing directories and the files. -/
structure FS where
  dirs : List String
  files : List TFile
deriving DecidableEq, Repr

/-- Go errors, at the granularity `os.IsNotExist` distinguishes: plain
errors made by `fmt.Errorf` or `errors.New` versus `os.PathError`-style
errors carrying a syscall errno. -/
inductive GoErr where
  | plainErr (msg : String)
  | pathErr (op : String) (path : String) (notExist : Bool)
deriving DecidableEq, Repr

/-- Model of `os.IsNotExist`: it unwraps only PathError / LinkError /
SyscallError and compares with `fs.ErrNotExist`; a plain error is never
a not-exist error. -/
def osIsNotExist : GoErr → Bool
  | .pathErr _ _ b => b
  | .plainErr _ => false

/-- The constant `templateDir` of main.go. -/
def templateDir : String := "internal/templates"

/-- The constant `defaultPort` of main.go. -/
def defaultPort : String := "8080"

/-- The default template content written by the self-heal branch of main
(the Go raw string literal `defaultContent`), byte for byte. -/
def defaultContent : String :=
  "\n<!DOCTYPE html>\n<html>\n<head>\n    <title>ERA API - Election Results</title>\n    <style>\n        body \x7b font-family: Arial, sans-serif; margin: 0; padding: 20px; \x7d\n        .container \x7b max-width: 1200px; margin: 0 auto; \x7d\n        .results \x7b border: 1px solid #ddd; padding: 15px; margin: 10px 0; \x7d\n    </style>\n</head>\n<body>\n    <div class=\"container\">\n        <h1>\x7b\x7b.Title\x7d\x7d</h1>\n        <div class=\"results\">\n            \x7b\x7b.Content\x7d\x7d\n        </div>\n    </div>\n</body>\n</html>"

/-- Files of `fs` matched by the glob pattern `dir/*.html`. -/
def htmlMatches (fs : FS) (dir : String) : List TFile :=
  fs.files.filter (fun f => f.dir == dir && f.name.endsWith ".html")

/-- Model of `template.ParseGlob(dir + "/*.html")`. `filepath.Glob` cannot
fail on this fixed well-formed pattern; when nothing matches, ParseGlob
returns the plain error "pattern matches no files" (file reads and
template parsing of matched files are assumed to succeed). -/
def templateParseGlob (fs : FS) (dir : String) : Except GoErr (List TFile) :=
  if (htmlMatches fs dir).isEmpty then
    .error (.plainErr ("html/template: pattern matches no files: " ++ dir ++ "/*.html"))
  else
    .ok (htmlMatches fs dir)

/-- Model of `os.MkdirAll`: records the directory (creation of parents is
not observable elsewhere in the program, only `templateDir` is consulted). -/
def osMkdirAll (fs : FS) (dir : String) : FS :=
  if dir ∈ fs.dirs then fs else { fs with dirs := fs.dirs ++ [dir] }

/-- Model of `os.WriteFile`: creates or replaces the file. -/
def osWriteFile (fs : FS) (dir name content : String) : FS :=
  { fs with
    files := fs.files.filter (fun f => !(f.dir == dir && f.name == name))
             ++ [⟨dir, name, content⟩] }

/-- Outcome of the template-bootstrap portion of `main`: either the
process exits with a code, or it proceeds towards serving with the loaded
templates. The final filesystem is carried along. -/
inductive BootResult where
  | exit (code : Nat) (fs : FS)
  | serving (templates : List TFile) (fs : FS)
deriving DecidableEq, Repr

/-- Whether a `BootResult` proceeds to serving. -/
def BootResult.isServing : BootResult → Bool
  | .serving _ _ => true
  | .exit _ _ => false

/-- The template-bootstrap logic of `main` (main.go lines 61-114),
embedded verbatim: load via ParseGlob; on error, only when
`os.IsNotExist` holds, create the directory, write `default.html`, and
retry the load once; any other error (or a failed retry) exits with
code 1. Directory creation and the file write are modelled as
succeeding. -/
def bootstrap (fs : FS) : BootResult :=
  match templateParseGlob fs templateDir with
  | .ok tmpl => .serving tmpl fs
  | .error e =>
    if osIsNotExist e then
      let fs1 := osMkdirAll fs templateDir
      let fs2 := osWriteFile fs1 templateDir "default.html" defaultContent
      match templateParseGlob fs2 templateDir with
      | .ok tmpl => .serving tmpl fs2
      | .error _ => .exit 1 fs2
    else
      .exit 1 fs

/-! ## HTTP layer -/

/-- The body of an inbound request, at the granularity
`json.NewDecoder(r.Body).Decode(&req)` distinguishes: either it decodes
into the four-field process-request structure (with the decoded string
fields), or decoding fails. -/
inductive Body where
  | wellFormed (countyName fileLink contentType parseMethod : String)
  | malformed
deriving DecidableEq, Repr

/-- An inbound HTTP request. -/
structure Request where
  method : String
  path : String
  body : Body
  remoteAddr : String
deriving DecidableEq, Repr

/-- The decoded process-request struct of `handleProcess`. -/
structure ProcessRequest where
  countyName : String
  fileLink : String
  contentType : String
  parseMethod : String
deriving DecidableEq, Repr

/-- Model of the JSON decode in `handleProcess`. -/
def decodeProcess : Body → Except Unit ProcessRequest
  | .wellFormed cn fl ct pm => .ok ⟨cn, fl, ct, pm⟩
  | .malformed => .error ()

/-- One write to the response body: either raw bytes, or the JSON
encoding of the response map of `handleProcess` (fields `html` and
`error`), abstracted to its value. -/
inductive BodyWrite where
  | raw (s : String)
  | jsonEnvelope (html : String) (err : Option String)
deriving DecidableEq, Repr

/-- The `error` field when the write is a JSON envelope. -/
def envelopeErrOf : BodyWrite → Option (Option String)
  | .jsonEnvelope _ e => some e
  | .raw _ => none

/-- The response-writer state: headers, the status committed by
`WriteHeader` (none until committed), and the body writes. -/
structure RW where
  headers : List (String × String)
  status : Option Nat
  bodyWrites : List BodyWrite
deriving DecidableEq, Repr

/-- Model of `w.Header().Set(name, value)`: replace any previous value. -/
def rwSetHeader (rw : RW) (name value : String) : RW :=
  { rw with headers := rw.headers.filter (fun h => h.1 != name) ++ [(name, value)] }

/-- Model of `w.WriteHeader(code)`: commits the status once; a second
call is ignored by net/http. -/
def rwWriteHeader (rw : RW) (code : Nat) : RW :=
  match rw.status with
  | none => { rw with status := some code }
  | some _ => rw

/-- Model of `w.Write`: an uncommitted status is committed to 200 OK by
the first write. -/
def rwWrite (rw : RW) (bw : BodyWrite) : RW :=
  let rw1 := rwWriteHeader rw 200
  { rw1 with bodyWrites := rw1.bodyWrites ++ [bw] }

/-- Model of `http.Error(w, msg, code)`: sets the plain-text content
type and nosniff headers, commits `code`, and writes `msg` plus a
newline. -/
def httpError (rw : RW) (msg : String) (code : Nat) : RW :=
  let rw1 := rwSetHeader rw "Content-Type" "text/plain; charset=utf-8"
  let rw2 := rwSetHeader rw1 "X-Content-Type-Options" "nosniff"
  let rw3 := rwWriteHeader rw2 code
  rwWrite rw3 (.raw (msg ++ "\n"))

/-- Observable execution events, marking where each pipeline stage and
the terminal handlers act:
  * `timerStart` is the first action of the `requestLogger` closure
    (`start := time.Now()`), marking entry into the observability stage;
  * `corsHeadersApplied` marks the header block at the top of
    `corsMiddleware`, its first action;
  * `corsPreflightReturn` marks its OPTIONS short-circuit;
  * `decodeBody` marks `handleProcess` reaching its JSON decode;
  * `logCompleted` marks the structured "request completed" record
    emitted by `requestLogger` after the inner chain returns. -/
inductive Ev where
  | timerStart
  | corsHeadersApplied
  | corsPreflightReturn
  | decodeBody
  | logCompleted (method path remoteAddr : String)
deriving DecidableEq, Repr

/-- Recognizers on events, by constructor. -/
def Ev.isTimerStart : Ev → Bool
  | .timerStart => true
  | _ => false

def Ev.isCorsHeadersApplied : Ev → Bool
  | .corsHeadersApplied => true
  | _ => false

def Ev.isCorsPreflightReturn : Ev → Bool
  | .corsPreflightReturn => true
  | _ => false

def Ev.isDecodeBody : Ev → Bool
  | .decodeBody => true
  | _ => false

def Ev.isLogCompleted : Ev → Bool
  | .logCompleted _ _ _ => true
  | _ => false

/-- Index of the first event satisfying `p`. -/
def firstIdx (p : Ev → Bool) : List Ev → Option Nat
  | [] => none
  | e :: es => if p e then some 0 else (firstIdx p es).map (· + 1)

/-- Whether some event satisfying `p` occurs, and the first such occurs
strictly before the first event satisfying `q`. -/
def precedesB (p q : Ev → Bool) (tr : List Ev) : Bool :=
  match firstIdx p tr, firstIdx q tr with
  | some i, some j => i < j
  | _, _ => false

/-- Whether any event satisfying `p` occurs in the trace. -/
def occursB (p : Ev → Bool) (tr : List Ev) : Bool :=
  (firstIdx p tr).isSome

/-- The state a handler transforms: the response writer plus the event
trace. -/
structure St where
  rw : RW
  trace : List Ev
deriving DecidableEq, Repr

/-- A handler, as a pure state transformer. -/
def Handler : Type := Request → St → St

/-- Model of `fmt.Sprintf` restricted to `%s` verbs, as used in
`handleProcess`: scan the format, substituting each `%s` with the next
argument verbatim. -/
def sprintfS : List Char → List String → List Char
  | [], _ => []
  | '%' :: 's' :: rest, v :: vs => v.data ++ sprintfS rest vs
  | '%' :: 's' :: rest, [] => '%' :: 's' :: sprintfS rest []
  | c :: rest, vs => c :: sprintfS rest vs

/-- String-level wrapper for `sprintfS`. -/
def goSprintf (fmtStr : String) (args : List String) : String :=
  ⟨sprintfS fmtStr.data args⟩

/-- The format string of the Sprintf call in `handleProcess` (a Go raw
string literal spanning main.go lines 250-257), byte for byte, tabs and
newlines included. -/
def processFmt : String :=
  "\n\t\t\t<div class=\"election-results\">\n\t\t\t\t<h2>%s Results</h2>\n\t\t\t\t<div class=\"results-container\">\n\t\t\t\t\t<p>Processing %s data from %s using %s parser</p>\n\t\t\t\t</div>\n\t\t\t</div>\n\t\t"

/-- The terminal process handler `handleProcess`: reject non-POST with
405, decode the body (emitting `decodeBody` when the decode runs),
answer a decode failure with 400 "Invalid request body", and otherwise
write the JSON envelope with the Sprintf-built html and a nil error. -/
def handleProcess : Handler := fun req st =>
  if req.method != "POST" then
    { st with rw := httpError st.rw "Method not allowed" 405 }
  else
    let st1 : St := { st with trace := st.trace ++ [.decodeBody] }
    match decodeProcess req.body with
    | .error _ =>
      { st1 with rw := httpError st1.rw "Invalid request body" 400 }
    | .ok r =>
      let htmlStr := goSprintf processFmt [r.countyName, r.contentType, r.fileLink, r.parseMethod]
      let rw1 := rwSetHeader st1.rw "Content-Type" "application/json"
      { st1 with rw := rwWrite rw1 (.jsonEnvelope htmlStr none) }

/-- The terminal health handler `healthCheck`: JSON content type, 200,
fixed payload. -/
def healthCheck : Handler := fun _ st =>
  let rw1 := rwSetHeader st.rw "Content-Type" "application/json"
  let rw2 := rwWriteHeader rw1 200
  { st with rw := rwWrite rw2 (.raw "\x7b\"status\":\"healthy\"\x7d") }

/-- The access-control stage `corsMiddleware`: always sets the five CORS
headers; on OPTIONS it answers 200 with no body and does not call the
inner handler. -/
def corsMiddleware (next : Handler) : Handler := fun req st =>
  let rw1 := rwSetHeader st.rw "Access-Control-Allow-Origin" "http://localhost:5174"
  let rw2 := rwSetHeader rw1 "Access-Control-Allow-Methods" "POST, GET, OPTIONS"
  let rw3 := rwSetHeader rw2 "Access-Control-Allow-Headers" "Content-Type, Authorization"
  let rw4 := rwSetHeader rw3 "Access-Control-Allow-Credentials" "true"
  let rw5 := rwSetHeader rw4 "Access-Control-Max-Age" "3600"
  let st1 : St := ⟨rw5, st.trace ++ [.corsHeadersApplied]⟩
  if req.method == "OPTIONS" then
    ⟨rwWriteHeader st1.rw 200, st1.trace ++ [.corsPreflightReturn]⟩
  else
    next req st1

/-- The observability stage `requestLogger`: captures the start time,
runs the inner handler, then emits the structured "request completed"
record. -/
def requestLogger (h : Handler) : Handler := fun req st =>
  let st1 : St := { st with trace := st.trace ++ [.timerStart] }
  let st2 := h req st1
  { st2 with trace := st2.trace ++ [.logCompleted req.method req.path req.remoteAddr] }

/-- The route table of `main`: `net/http.ServeMux` with the method
patterns "POST /api/v1/process" and "GET /health". A registered path
with a non-matching method gets the Allow header and
405 Method Not Allowed (written via `http.Error`) without any
registered handler running; an unregistered path gets 404. A GET
pattern also matches HEAD. -/
def serveMux : Handler := fun req st =>
  if req.path == "/api/v1/process" then
    if req.method == "POST" then
      corsMiddleware handleProcess req st
    else
      { st with rw := httpError (rwSetHeader st.rw "Allow" "POST") "Method Not Allowed" 405 }
  else if req.path == "/health" then
    if req.method == "GET" || req.method == "HEAD" then
      healthCheck req st
    else
      { st with rw := httpError (rwSetHeader st.rw "Allow" "GET") "Method Not Allowed" 405 }
  else
    { st with rw := httpError st.rw "404 page not found" 404 }

/-- The composed pipeline exactly as `main` builds it:
`requestLogger(mux)` where the mux routes to
`corsMiddleware(handleProcess)` and `healthCheck`. -/
def serveHTTP : Handler := requestLogger serveMux

/-- The empty response-writer state a fresh request starts from. -/
def st0 : St := ⟨⟨[], none, []⟩, []⟩

/-- Dispatch one request through the composed pipeline. -/
def run (req : Request) : St := serveHTTP req st0

/-! ## Configuration -/

/-- Model of `os.Getenv`: the empty string when the variable is unset. -/
def osGetenv (env : String → Option String) (key : String) : String :=
  (env key).getD ""

/-- The helper `getEnvOrDefault` of main.go: the environment value when
non-empty, else the default. -/
def getEnvOrDefault (env : String → Option String) (key defaultValue : String) : String :=
  let value := osGetenv env key
  if value != "" then value else defaultValue

/-- The port resolution in `main`: `getEnvOrDefault("PORT", defaultPort)`. -/
def resolvedPort (env : String → Option String) : String :=
  getEnvOrDefault env "PORT" defaultPort

/-! ## Shutdown -/

/-- Level of a structured-log record (`logger.Info` / `logger.Error`). -/
inductive LogLevel where
  | info
  | error
deriving DecidableEq, Repr

/-- A structured-log record, identified by level and message. -/
structure LogRec where
  level : LogLevel
  msg : String
deriving DecidableEq, Repr

/-- Calls `gracefulShutdown` makes on the `http.Server`: the bounded
graceful `Shutdown` with its drain budget in nanoseconds, and the
forced `Close`. -/
inductive ServerOp where
  | shutdownCall (budget : Nat)
  | closeCall
deriving DecidableEq, Repr

/-- Go `time.Second`, in nanoseconds (`time.Duration` counts
nanoseconds). -/
def timeSecond : Nat := 1000000000

/-- The constant `shutdownTimeout = 10 * time.Second` of main.go. -/
def shutdownTimeout : Nat := 10 * timeSecond

/-- The error `server.Shutdown(ctx)` returns when the drain budget is
exceeded: the context deadline error (a plain error, not fatal). -/
def deadlineExceeded : GoErr := .plainErr "context deadline exceeded"

/-- What one run of `gracefulShutdown` did: the server calls it made in
order, the log records it emitted in order, and the exit code it
requested (`none`: it never calls `os.Exit`). -/
structure ShutdownRun where
  ops : List ServerOp
  logs : List LogRec
  exitCode : Option Nat
deriving DecidableEq, Repr

/-- The function `gracefulShutdown` of main.go, parameterized by the
error `server.Shutdown(ctx)` returns (none when the drain completed
within budget) and the error `server.Close()` returns. On a shutdown
error it logs "server shutdown failed" at error level and forcibly
closes; it always ends with the info record "server stopped" and never
exits the process. -/
def gracefulShutdown (shutdownErr closeErr : Option GoErr) : ShutdownRun :=
  match shutdownErr with
  | none =>
    ⟨[.shutdownCall shutdownTimeout], [⟨.info, "server stopped"⟩], none⟩
  | some _ =>
    match closeErr with
    | none =>
      ⟨[.shutdownCall shutdownTimeout, .closeCall],
       [⟨.error, "server shutdown failed"⟩, ⟨.info, "server stopped"⟩], none⟩
    | some _ =>
      ⟨[.shutdownCall shutdownTimeout, .closeCall],
       [⟨.error, "server shutdown failed"⟩, ⟨.error, "server close failed"⟩,
        ⟨.info, "server stopped"⟩], none⟩

/-! ## Theorems -/

/-- Supporting fact: every error `templateParseGlob` can return is a
plain error, so `os.IsNotExist` is false on it and the self-heal branch
of `bootstrap` is unreachable. -/
theorem templateParseGlobErrIsPlain (fs : FS) (dir : String) (e : GoErr)
    (h : templateParseGlob fs dir = .error e) : osIsNotExist e = false := by
  unfold templateParseGlob at h
  split at h
  · injection h with h1
    subst h1
    rfl
  · cases h

/-- Supporting witness for the previous fact. -/
theorem templateParseGlobErrIsPlainInst :
    templateParseGlob ⟨[], []⟩ "internal/templates" =
      .error (.plainErr "html/template: pattern matches no files: internal/templates/*.html") ∧
    osIsNotExist
      (.plainErr "html/template: pattern matches no files: internal/templates/*.html") = false :=
  ⟨rfl, templateParseGlobErrIsPlain ⟨[], []⟩ "internal/templates" _ rfl⟩

/-- C1: evaluation of the startup bootstrap on the failing input, a
filesystem where the template directory is absent. The claim says the
directory is created, one default asset is written, the load is retried
once, and the service proceeds to serving; instead the process exits
with code 1, because the "pattern matches no files" error ParseGlob
returns for a missing directory is a plain error on which
`os.IsNotExist` is false, so the self-heal branch never runs. -/
theorem c1_missing_dir_exits :
    bootstrap ⟨[], []⟩ = BootResult.exit 1 ⟨[], []⟩ ∧
    templateParseGlob ⟨[], []⟩ templateDir =
      .error (.plainErr "html/template: pattern matches no files: internal/templates/*.html") ∧
    osIsNotExist (.plainErr "html/template: pattern matches no files: internal/templates/*.html")
      = false :=
  ⟨rfl, rfl, rfl⟩

/-- C2 counterexample: on a filesystem where the template directory
exists and holds zero matching assets, the bootstrap does not yield an
empty asset set and reach serving, as the claim states; it exits with
code 1. -/
theorem c2_counterexample :
    BootResult.isServing (bootstrap ⟨["internal/templates"], []⟩) = false ∧
    bootstrap ⟨["internal/templates"], []⟩ = BootResult.exit 1 ⟨["internal/templates"], []⟩ := by
  decide

/-- C2 amended: for every startup in which the template directory
exists but contains zero assets matching the recognized extension, the
load fails with the no-match error, which is not a not-exist error, so
the bootstrap logs a fatal error and the process exits with code 1
rather than reaching serving. -/
theorem c2_empty_dir_exits (fs : FS) (hdir : templateDir ∈ fs.dirs)
    (hm : htmlMatches fs templateDir = []) :
    bootstrap fs = BootResult.exit 1 fs := by
  simp [bootstrap, templateParseGlob, hm, osIsNotExist]

/-- C2 witness: the amended theorem applied to the concrete filesystem
holding only the empty template directory. -/
theorem c2_witness :
    bootstrap ⟨["internal/templates"], []⟩ = BootResult.exit 1 ⟨["internal/templates"], []⟩ :=
  c2_empty_dir_exits ⟨["internal/templates"], []⟩ (by decide) rfl

/-- C3 counterexample: on a concrete well-formed processing request,
both the access-control stage and the observability stage execute, but
the access-control stage does not execute before the observability
stage: `requestLogger` wraps the mux, which wraps `corsMiddleware`, so
the logging stage is entered (its timer started) first. -/
theorem c3_counterexample :
    occursB Ev.isCorsHeadersApplied
      (run ⟨"POST", "/api/v1/process", Body.wellFormed "Alameda" "http://x" "candidate" "zip",
        "127.0.0.1:9"⟩).trace = true ∧
    occursB Ev.isTimerStart
      (run ⟨"POST", "/api/v1/process", Body.wellFormed "Alameda" "http://x" "candidate" "zip",
        "127.0.0.1:9"⟩).trace = true ∧
    precedesB Ev.isCorsHeadersApplied Ev.isTimerStart
      (run ⟨"POST", "/api/v1/process", Body.wellFormed "Alameda" "http://x" "candidate" "zip",
        "127.0.0.1:9"⟩).trace = false := by
  decide

/-- C3 amended: the observability (logging) stage is the outermost
stage: for every dispatched processing request it executes (its timer
starts) before the access-control stage, which in turn executes before
the terminal handler, and the completion log record is emitted last,
after all inner stages. -/
theorem c3_logging_outermost (b : Body) (addr : String) :
    precedesB Ev.isTimerStart Ev.isCorsHeadersApplied
      (run ⟨"POST", "/api/v1/process", b, addr⟩).trace = true ∧
    precedesB Ev.isCorsHeadersApplied Ev.isDecodeBody
      (run ⟨"POST", "/api/v1/process", b, addr⟩).trace = true ∧
    (run ⟨"POST", "/api/v1/process", b, addr⟩).trace.getLast? =
      some (Ev.logCompleted "POST" "/api/v1/process" addr) := by
  cases b <;> exact ⟨rfl, rfl, rfl⟩

/-- C4: evaluation of the pipeline on the failing input, a preflight
OPTIONS call to the processing endpoint. The claim (and the OPTIONS
short-circuit inside `corsMiddleware`) says 200 with an empty body; but
the mux pattern "POST /api/v1/process" matches only POST, so the mux
answers 405 "Method Not Allowed" and neither the access-control stage
nor the handler ever runs. -/
theorem c4_preflight_rejected_by_mux :
    (run ⟨"OPTIONS", "/api/v1/process", Body.malformed, "127.0.0.1:7"⟩).rw.status = some 405 ∧
    (run ⟨"OPTIONS", "/api/v1/process", Body.malformed, "127.0.0.1:7"⟩).rw.bodyWrites =
      [BodyWrite.raw "Method Not Allowed\n"] ∧
    occursB Ev.isCorsHeadersApplied
      (run ⟨"OPTIONS", "/api/v1/process", Body.malformed, "127.0.0.1:7"⟩).trace = false ∧
    occursB Ev.isCorsPreflightReturn
      (run ⟨"OPTIONS", "/api/v1/process", Body.malformed, "127.0.0.1:7"⟩).trace = false ∧
    occursB Ev.isDecodeBody
      (run ⟨"OPTIONS", "/api/v1/process", Body.malformed, "127.0.0.1:7"⟩).trace = false := by
  decide

/-- Supporting fact for C4: had an OPTIONS request reached
`corsMiddleware`, the short-circuit would behave as the claim states:
status 200, no body write, and the inner handler never reached. This
shows the claimed behavior is coded but unreachable through the mux. -/
theorem corsShortCircuitIfReached (b : Body) (addr : String) :
    (corsMiddleware handleProcess ⟨"OPTIONS", "/api/v1/process", b, addr⟩ st0).rw.status
      = some 200 ∧
    (corsMiddleware handleProcess ⟨"OPTIONS", "/api/v1/process", b, addr⟩ st0).rw.bodyWrites
      = [] ∧
    occursB Ev.isDecodeBody
      (corsMiddleware handleProcess ⟨"OPTIONS", "/api/v1/process", b, addr⟩ st0).trace = false := by
  cases b <;> exact ⟨rfl, rfl, rfl⟩

/-- C5: for every processing call whose body does not decode into the
expected JSON structure, the response has client-error status 400 and
the plain diagnostic body "Invalid request body"; the only body write
is that diagnostic, so no envelope is produced and no handler or asset
state is touched (the handlers are stateless in the program: nothing in
the pipeline writes the filesystem or any shared state). -/
theorem c5_malformed_body (addr : String) :
    (run ⟨"POST", "/api/v1/process", Body.malformed, addr⟩).rw.status = some 400 ∧
    (run ⟨"POST", "/api/v1/process", Body.malformed, addr⟩).rw.bodyWrites =
      [BodyWrite.raw "Invalid request body\n"] :=
  ⟨rfl, rfl⟩

/-- C6: when the graceful stop does not finish within the drain budget
(`server.Shutdown` returns the context deadline error), the drain
budget is the fixed 10 seconds, the orchestrator then forcibly closes
the server (`closeCall` after the bounded `shutdownCall`), logs the
failed graceful shutdown as its own error-level record, and does not
exit the process the way fatal startup errors do. -/
theorem c6_forced_close (closeErr : Option GoErr) :
    shutdownTimeout = 10 * timeSecond ∧
    (gracefulShutdown (some deadlineExceeded) closeErr).ops =
      [ServerOp.shutdownCall shutdownTimeout, ServerOp.closeCall] ∧
    (gracefulShutdown (some deadlineExceeded) closeErr).logs.contains
      ⟨LogLevel.error, "server shutdown failed"⟩ = true ∧
    (gracefulShutdown (some deadlineExceeded) closeErr).exitCode = none := by
  cases closeErr <;> exact ⟨rfl, rfl, rfl, rfl⟩

/-- C7: every GET call to the liveness probe endpoint, whatever its
body content, gets status 200 with exactly the fixed payload
`{"status":"healthy"}` and the JSON content type; the handler consults
nothing else. -/
theorem c7_health (b : Body) (addr : String) :
    (run ⟨"GET", "/health", b, addr⟩).rw.status = some 200 ∧
    (run ⟨"GET", "/health", b, addr⟩).rw.bodyWrites =
      [BodyWrite.raw "\x7b\"status\":\"healthy\"\x7d"] ∧
    (run ⟨"GET", "/health", b, addr⟩).rw.headers.contains
      ("Content-Type", "application/json") = true := by
  cases b <;> exact ⟨rfl, rfl, rfl⟩

/-- C8: the resolved listen port equals the PORT environment value when
that value is present and non-empty, and equals the fixed default
"8080" when PORT is unset or empty. -/
theorem c8_port (env : String → Option String) :
    (∀ v, env "PORT" = some v → v ≠ "" → resolvedPort env = v) ∧
    ((env "PORT" = none ∨ env "PORT" = some "") → resolvedPort env = "8080") := by
  constructor
  · intro v hv hne
    simp [resolvedPort, getEnvOrDefault, osGetenv, hv, defaultPort, hne]
  · intro hv
    cases hv with
    | inl h => simp [resolvedPort, getEnvOrDefault, osGetenv, h, defaultPort]
    | inr h => simp [resolvedPort, getEnvOrDefault, osGetenv, h, defaultPort]

/-- C8 witness: the port theorem applied to a concrete environment with
PORT set to "9090" and to a concrete empty environment. -/
theorem c8_witness :
    resolvedPort (fun k => if k = "PORT" then some "9090" else none) = "9090" ∧
    resolvedPort (fun _ => none) = "8080" :=
  ⟨(c8_port (fun k => if k = "PORT" then some "9090" else none)).1 "9090" (by simp) (by decide),
   (c8_port (fun _ => none)).2 (Or.inl rfl)⟩

/-- C9: for every body that decodes into the four-field request
structure, with arbitrary (possibly empty or out-of-enumeration) field
values, the processing handler answers with success status 200 and a
single JSON envelope whose error field is null; no validation of
contentType or parseMethod happens anywhere on the path. -/
theorem c9_no_validation (cn fl ct pm addr : String) :
    (run ⟨"POST", "/api/v1/process", Body.wellFormed cn fl ct pm, addr⟩).rw.status = some 200 ∧
    ((run ⟨"POST", "/api/v1/process", Body.wellFormed cn fl ct pm, addr⟩).rw.bodyWrites).map
      envelopeErrOf = [some none] :=
  ⟨rfl, rfl⟩

set_option maxRecDepth 4096 in
/-- C10: for every well-formed processing request, the html field of
the response envelope is exactly the fixed format string with the
request's countyName, contentType, fileLink and parseMethod substituted
for its four %s verbs in that order, verbatim, with no escaping or
sanitization of the request-supplied strings. -/
theorem c10_html_interpolation (cn fl ct pm addr : String) :
    (run ⟨"POST", "/api/v1/process", Body.wellFormed cn fl ct pm, addr⟩).rw.bodyWrites =
      [BodyWrite.jsonEnvelope
        ("\n\t\t\t<div class=\"election-results\">\n\t\t\t\t<h2>" ++ (cn ++
         (" Results</h2>\n\t\t\t\t<div class=\"results-container\">\n\t\t\t\t\t<p>Processing " ++ (ct ++
         (" data from " ++ (fl ++ (" using " ++ (pm ++
         " parser</p>\n\t\t\t\t</div>\n\t\t\t</div>\n\t\t"))))))))
        none] := by
  rfl
